import Mathlib

/-!
Shallow embedding of the typed-event facade of qt-gstreamer
(src/src/QGst/event.h): the Event wrapper over the reference-counted
native GstEvent, its eleven typed subclasses, and the QGlib converter
and value-impl hooks generated by the registration macros at the bottom
of the header.  Declarations whose bodies live outside src/ (the
event.cpp implementations and the QGlib support headers) are modelled
from the spec and carry a doc comment starting with "Modelled from the
spec:".
-/

namespace QGlib

/-- GLib type tags relevant to this header: the MiniObject fundamental
type, the GstEvent and GstMessage boxed types (both MiniObject
subtypes in the native library), and a tag standing for any unrelated
type.  Corresponds to QGlib::Type as used in the converter macro. -/
inductive GType
  | gMiniObject
  | gstEvent
  | gstMessage
  | gOther
  deriving DecidableEq, Repr, Fintype

/-- Type::isA for the tiny hierarchy above: GstEvent and GstMessage are
subtypes of MiniObject; every tag is-a itself. -/
def GType.isA : GType → GType → Bool
  | .gMiniObject, .gMiniObject => true
  | .gstEvent, .gstEvent => true
  | .gstEvent, .gMiniObject => true
  | .gstMessage, .gstMessage => true
  | .gstMessage, .gMiniObject => true
  | .gOther, .gOther => true
  | _, _ => false

end QGlib

namespace QGst

/-- The native event-type enum, as used by the header through the names
QGst::EventFlushStart .. QGst::EventStep (the enum itself is declared in
enums.h, outside src/; the constructor list follows the native
GstEventType of the wrapped 0.10 library).  EventTag exists in the
native enum but, per the TODO comments in the header (lines 128 and
279), has no wrapper in this layer. -/
inductive EventType
  | unknown
  | flushStart
  | flushStop
  | eos
  | newSegment
  | tag
  | bufferSize
  | sinkMessage
  | qos
  | seek
  | navigation
  | latency
  | step
  | customUpstream
  | customDownstream
  | customBoth
  deriving DecidableEq, Repr, Fintype

/-- Modelled from the spec: the native event-type name table consulted by
QString Event::typeName() (its body, in event.cpp, is not under src/).
It is a pure function of the event type. -/
def EventType.gstName : EventType → String
  | .unknown => "unknown"
  | .flushStart => "flush-start"
  | .flushStop => "flush-stop"
  | .eos => "eos"
  | .newSegment => "newsegment"
  | .tag => "tag"
  | .bufferSize => "buffersize"
  | .sinkMessage => "sink-message"
  | .qos => "qos"
  | .seek => "seek"
  | .navigation => "navigation"
  | .latency => "latency"
  | .step => "step"
  | .customUpstream => "custom-upstream"
  | .customDownstream => "custom-downstream"
  | .customBoth => "custom-both"

/-- GstStructure content, reduced to its name: this layer only stores and
hands back structures, never looks inside them. -/
structure Structure where
  structName : String
  deriving DecidableEq, Repr

/-- A GstMessage handle, reduced to an identifying payload: the
SinkMessage glue only stores and hands back the handle. -/
structure Message where
  msgData : Nat
  deriving DecidableEq, Repr

/-- A C double carried opaquely as its 64-bit pattern: this layer
performs no arithmetic on doubles, it only stores and retrieves them. -/
structure GDouble where
  bits : Nat
  deriving DecidableEq, Repr

/-- The native GstFormat enum (declared outside src/), stored and
retrieved opaquely by this layer. -/
inductive Format
  | undefined
  | default
  | bytes
  | time
  | buffers
  | percent
  deriving DecidableEq, Repr, Fintype

/-- The native GstSeekType enum (declared outside src/). -/
inductive SeekType
  | typeNone
  | typeCur
  | typeSet
  | typeEnd
  deriving DecidableEq, Repr, Fintype

/-- SeekFlags is a bitmask, stored and retrieved opaquely. -/
abbrev SeekFlags := Nat

/-- The per-kind content of a native event, as produced by the native
gst_event_new_* constructors that the typed create functions wrap. -/
inductive EventPayload
  | empty
  | newSegment (update : Bool) (rate appliedRate : GDouble) (format : Format)
      (start stop position : Int)
  | bufferSize (format : Format) (minSize maxSize : Int) (isAsync : Bool)
  | sinkMessage (msg : Message)
  | qos (proportion : GDouble) (diff : Int) (timestamp : Nat)
  | seek (rate : GDouble) (format : Format) (flags : SeekFlags)
      (startType : SeekType) (start : Int) (stopType : SeekType) (stop : Int)
  | latency (latency : Nat)
  | step (format : Format) (amount : Nat) (rate : GDouble)
      (flush intermediate : Bool)
  deriving DecidableEq, Repr

/-- The native GstEvent object that QGst::Event wraps: a MiniObject
(hence the reference count) holding an event type, a sequence number, a
timestamp, an optional GstStructure and the per-kind content. -/
structure Event where
  refCount : Nat
  evType : EventType
  seqnum : Nat
  ts : Nat
  struct : Option Structure
  payload : EventPayload
  deriving DecidableEq, Repr

/-- GST_CLOCK_TIME_NONE, the timestamp of a freshly created event. -/
def clockTimeNone : Nat := 2 ^ 64 - 1

/-- Event::type() reads the native event type. -/
def Event.type (e : Event) : EventType := e.evType

/-- Modelled from the spec: Event::typeName() (body in event.cpp, not
under src/) returns the native name of the event's type. -/
def Event.typeName (e : Event) : String := e.evType.gstName

/-- Modelled from the spec: Event::timestamp() (body in event.cpp, not
under src/) reads the native timestamp field. -/
def Event.timestamp (e : Event) : Nat := e.ts

/-- Modelled from the spec: Event::sequenceNumber() (body in event.cpp,
not under src/) reads the native sequence-number field. -/
def Event.sequenceNumber (e : Event) : Nat := e.seqnum

/-- Modelled from the spec: Event::setSequenceNumber() (body in
event.cpp, not under src/) stores its quint32 argument in the native
sequence-number field; the reduction mod 2^32 is the quint32 value
truncation at the call boundary. -/
def Event.setSequenceNumber (e : Event) (num : Nat) : Event :=
  { e with seqnum := num % 2 ^ 32 }

/-- Modelled from the spec: Event::structure() (body in event.cpp, not
under src/) hands back the event's structure as a SharedStructure view;
NULL is modelled as none.  Named getStructure because structure is a
reserved word here. -/
def Event.getStructure (e : Event) : Option Structure := e.struct

/-- Modelled from the spec: Event::ref() (body in event.cpp, not under
src/) increments the MiniObject reference count. -/
def Event.ref (e : Event) : Event := { e with refCount := e.refCount + 1 }

/-- Modelled from the spec: Event::unref() (body in event.cpp, not under
src/) decrements the MiniObject reference count (deallocation at zero is
outside the model). -/
def Event.unref (e : Event) : Event := { e with refCount := e.refCount - 1 }

/-- Modelled from the spec: the native gst_event_new_* constructors that
the create functions wrap allocate a fresh event of the given type with
a single reference, no timestamp yet (GST_CLOCK_TIME_NONE), the given
structure and the given per-kind content.  The fresh sequence number
drawn from the native global counter is modelled as 0. -/
def Event.newNative (t : EventType) (s : Option Structure)
    (p : EventPayload) : Event :=
  { refCount := 1, evType := t, seqnum := 0, ts := clockTimeNone,
    struct := s, payload := p }

/-- The default value of the structure argument of Event::create and
NavigationEvent::create: SharedStructure(NULL) (header lines 58 and
197), i.e. no structure. -/
def sharedStructureNull : Option Structure := Option.none

/-- Modelled from the spec: Event::create(type, structure) (body in
event.cpp, not under src/) wraps gst_event_new_custom, producing a fresh
event of the requested type carrying the given structure. -/
def Event.create (t : EventType) (s : Option Structure) : Event :=
  Event.newNative t s .empty

/-- Event::create with its structure argument omitted: the header
(line 58) defaults it to SharedStructure(NULL). -/
def Event.create1 (t : EventType) : Event := Event.create t sharedStructureNull

end QGst

namespace QGst

/-- Modelled from the spec: FlushStartEvent::create (event.cpp, not under
src/) wraps gst_event_new_flush_start. -/
def FlushStartEvent.create : Event :=
  Event.newNative .flushStart Option.none .empty

/-- Modelled from the spec: FlushStopEvent::create (event.cpp, not under
src/) wraps gst_event_new_flush_stop. -/
def FlushStopEvent.create : Event :=
  Event.newNative .flushStop Option.none .empty

/-- Modelled from the spec: EosEvent::create (event.cpp, not under src/)
wraps gst_event_new_eos. -/
def EosEvent.create : Event :=
  Event.newNative .eos Option.none .empty

/-- Modelled from the spec: NewSegmentEvent::create (event.cpp, not under
src/) wraps gst_event_new_new_segment_full, storing its seven arguments
in the event. -/
def NewSegmentEvent.create (update : Bool) (rate appliedRate : GDouble)
    (format : Format) (start stop position : Int) : Event :=
  Event.newNative .newSegment Option.none
    (.newSegment update rate appliedRate format start stop position)

/-- Modelled from the spec: the isUpdate accessor parses the new-segment
content (gst_event_parse_new_segment_full); on an event of another kind
the native parse fails, modelled as none. -/
def NewSegmentEvent.isUpdate (e : Event) : Option Bool :=
  match e.payload with
  | .newSegment u _ _ _ _ _ _ => some u
  | _ => Option.none

/-- Modelled from the spec: the rate accessor of NewSegmentEvent. -/
def NewSegmentEvent.rate (e : Event) : Option GDouble :=
  match e.payload with
  | .newSegment _ r _ _ _ _ _ => some r
  | _ => Option.none

/-- Modelled from the spec: the appliedRate accessor of NewSegmentEvent. -/
def NewSegmentEvent.appliedRate (e : Event) : Option GDouble :=
  match e.payload with
  | .newSegment _ _ ar _ _ _ _ => some ar
  | _ => Option.none

/-- Modelled from the spec: the format accessor of NewSegmentEvent. -/
def NewSegmentEvent.format (e : Event) : Option Format :=
  match e.payload with
  | .newSegment _ _ _ f _ _ _ => some f
  | _ => Option.none

/-- Modelled from the spec: the start accessor of NewSegmentEvent. -/
def NewSegmentEvent.start (e : Event) : Option Int :=
  match e.payload with
  | .newSegment _ _ _ _ s _ _ => some s
  | _ => Option.none

/-- Modelled from the spec: the stop accessor of NewSegmentEvent. -/
def NewSegmentEvent.stop (e : Event) : Option Int :=
  match e.payload with
  | .newSegment _ _ _ _ _ s _ => some s
  | _ => Option.none

/-- Modelled from the spec: the position accessor of NewSegmentEvent. -/
def NewSegmentEvent.position (e : Event) : Option Int :=
  match e.payload with
  | .newSegment _ _ _ _ _ _ p => some p
  | _ => Option.none

/-- Modelled from the spec: BufferSizeEvent::create wraps
gst_event_new_buffer_size, storing its four arguments. -/
def BufferSizeEvent.create (format : Format) (minSize maxSize : Int)
    (isAsync : Bool) : Event :=
  Event.newNative .bufferSize Option.none
    (.bufferSize format minSize maxSize isAsync)

/-- Modelled from the spec: the format accessor of BufferSizeEvent. -/
def BufferSizeEvent.format (e : Event) : Option Format :=
  match e.payload with
  | .bufferSize f _ _ _ => some f
  | _ => Option.none

/-- Modelled from the spec: the minSize accessor of BufferSizeEvent. -/
def BufferSizeEvent.minSize (e : Event) : Option Int :=
  match e.payload with
  | .bufferSize _ mn _ _ => some mn
  | _ => Option.none

/-- Modelled from the spec: the maxSize accessor of BufferSizeEvent. -/
def BufferSizeEvent.maxSize (e : Event) : Option Int :=
  match e.payload with
  | .bufferSize _ _ mx _ => some mx
  | _ => Option.none

/-- Modelled from the spec: the isAsync accessor of BufferSizeEvent. -/
def BufferSizeEvent.isAsync (e : Event) : Option Bool :=
  match e.payload with
  | .bufferSize _ _ _ a => some a
  | _ => Option.none

/-- Modelled from the spec: SinkMessageEvent::create wraps
gst_event_new_sink_message, storing the message handle. -/
def SinkMessageEvent.create (msg : Message) : Event :=
  Event.newNative .sinkMessage Option.none (.sinkMessage msg)

/-- Modelled from the spec: the message accessor of SinkMessageEvent. -/
def SinkMessageEvent.message (e : Event) : Option Message :=
  match e.payload with
  | .sinkMessage m => some m
  | _ => Option.none

/-- Modelled from the spec: QosEvent::create wraps gst_event_new_qos,
storing its three arguments. -/
def QosEvent.create (proportion : GDouble) (diff : Int)
    (timestamp : Nat) : Event :=
  Event.newNative .qos Option.none (.qos proportion diff timestamp)

/-- Modelled from the spec: the proportion accessor of QosEvent. -/
def QosEvent.proportion (e : Event) : Option GDouble :=
  match e.payload with
  | .qos p _ _ => some p
  | _ => Option.none

/-- Modelled from the spec: the diff accessor of QosEvent. -/
def QosEvent.diff (e : Event) : Option Int :=
  match e.payload with
  | .qos _ d _ => some d
  | _ => Option.none

/-- Modelled from the spec: the timestamp accessor of QosEvent. -/
def QosEvent.timestamp (e : Event) : Option Nat :=
  match e.payload with
  | .qos _ _ t => some t
  | _ => Option.none

/-- Modelled from the spec: SeekEvent::create wraps gst_event_new_seek,
storing its seven arguments. -/
def SeekEvent.create (rate : GDouble) (format : Format) (flags : SeekFlags)
    (startType : SeekType) (start : Int) (stopType : SeekType)
    (stop : Int) : Event :=
  Event.newNative .seek Option.none
    (.seek rate format flags startType start stopType stop)

/-- Modelled from the spec: the rate accessor of SeekEvent. -/
def SeekEvent.rate (e : Event) : Option GDouble :=
  match e.payload with
  | .seek r _ _ _ _ _ _ => some r
  | _ => Option.none

/-- Modelled from the spec: the format accessor of SeekEvent. -/
def SeekEvent.format (e : Event) : Option Format :=
  match e.payload with
  | .seek _ f _ _ _ _ _ => some f
  | _ => Option.none

/-- Modelled from the spec: the flags accessor of SeekEvent. -/
def SeekEvent.flags (e : Event) : Option SeekFlags :=
  match e.payload with
  | .seek _ _ fl _ _ _ _ => some fl
  | _ => Option.none

/-- Modelled from the spec: the startType accessor of SeekEvent. -/
def SeekEvent.startType (e : Event) : Option SeekType :=
  match e.payload with
  | .seek _ _ _ st _ _ _ => some st
  | _ => Option.none

/-- Modelled from the spec: the start accessor of SeekEvent. -/
def SeekEvent.start (e : Event) : Option Int :=
  match e.payload with
  | .seek _ _ _ _ s _ _ => some s
  | _ => Option.none

/-- Modelled from the spec: the stopType accessor of SeekEvent. -/
def SeekEvent.stopType (e : Event) : Option SeekType :=
  match e.payload with
  | .seek _ _ _ _ _ st _ => some st
  | _ => Option.none

/-- Modelled from the spec: the stop accessor of SeekEvent. -/
def SeekEvent.stop (e : Event) : Option Int :=
  match e.payload with
  | .seek _ _ _ _ _ _ s => some s
  | _ => Option.none

/-- Modelled from the spec: NavigationEvent::create wraps
gst_event_new_navigation; the event content is the given structure,
which defaults to SharedStructure(NULL) (header line 197). -/
def NavigationEvent.create (s : Option Structure) : Event :=
  Event.newNative .navigation s .empty

/-- Modelled from the spec: LatencyEvent::create wraps
gst_event_new_latency, storing the latency. -/
def LatencyEvent.create (latency : Nat) : Event :=
  Event.newNative .latency Option.none (.latency latency)

/-- Modelled from the spec: the latency accessor of LatencyEvent. -/
def LatencyEvent.latency (e : Event) : Option Nat :=
  match e.payload with
  | .latency l => some l
  | _ => Option.none

/-- Modelled from the spec: StepEvent::create wraps gst_event_new_step,
storing its five arguments. -/
def StepEvent.create (format : Format) (amount : Nat) (rate : GDouble)
    (flush intermediate : Bool) : Event :=
  Event.newNative .step Option.none
    (.step format amount rate flush intermediate)

/-- Modelled from the spec: the format accessor of StepEvent. -/
def StepEvent.format (e : Event) : Option Format :=
  match e.payload with
  | .step f _ _ _ _ => some f
  | _ => Option.none

/-- Modelled from the spec: the amount accessor of StepEvent. -/
def StepEvent.amount (e : Event) : Option Nat :=
  match e.payload with
  | .step _ a _ _ _ => some a
  | _ => Option.none

/-- Modelled from the spec: the rate accessor of StepEvent. -/
def StepEvent.rate (e : Event) : Option GDouble :=
  match e.payload with
  | .step _ _ r _ _ => some r
  | _ => Option.none

/-- Modelled from the spec: the flush accessor of StepEvent. -/
def StepEvent.flush (e : Event) : Option Bool :=
  match e.payload with
  | .step _ _ _ fl _ => some fl
  | _ => Option.none

/-- Modelled from the spec: the intermediate accessor of StepEvent. -/
def StepEvent.intermediate (e : Event) : Option Bool :=
  match e.payload with
  | .step _ _ _ _ i => some i
  | _ => Option.none

end QGst

namespace QGst

/-- The eleven Event subclasses that the header declares and registers
(header lines 82-227 and 275-286). -/
inductive EventSubclass
  | flushStart
  | flushStop
  | eos
  | newSegment
  | bufferSize
  | sinkMessage
  | qos
  | seek
  | navigation
  | latency
  | step
  deriving DecidableEq, Repr, Fintype

/-- The QGST_REGISTER_EVENT_SUBCLASS invocations of the header, in order
(lines 275-286); the Tag line (279) is commented out with a TODO. -/
def registeredSubclasses : List EventSubclass :=
  [.flushStart, .flushStop, .eos, .newSegment, .bufferSize, .sinkMessage,
   .qos, .seek, .navigation, .latency, .step]

/-- The EVTTYPE a registered subclass is associated with: the macro
(line 270) pairs QGst::TYPE##Event with QGst::Event##TYPE. -/
def subclassEventType : EventSubclass → EventType
  | .flushStart => .flushStart
  | .flushStop => .flushStop
  | .eos => .eos
  | .newSegment => .newSegment
  | .bufferSize => .bufferSize
  | .sinkMessage => .sinkMessage
  | .qos => .qos
  | .seek => .seek
  | .navigation => .navigation
  | .latency => .latency
  | .step => .step

/-- A representative call of each subclass create function, used to
check that each registered subclass has a static create producing an
event of its own event type. -/
def subclassCreateSample : EventSubclass → Event
  | .flushStart => FlushStartEvent.create
  | .flushStop => FlushStopEvent.create
  | .eos => EosEvent.create
  | .newSegment => NewSegmentEvent.create false ⟨0⟩ ⟨0⟩ .time 0 0 0
  | .bufferSize => BufferSizeEvent.create .bytes 0 0 false
  | .sinkMessage => SinkMessageEvent.create ⟨0⟩
  | .qos => QosEvent.create ⟨0⟩ 0 0
  | .seek => SeekEvent.create ⟨0⟩ .time 0 .typeSet 0 .typeSet 0
  | .navigation => NavigationEvent.create sharedStructureNull
  | .latency => LatencyEvent.create 0
  | .step => StepEvent.create .time 0 ⟨0⟩ false false

/-- The C++ class hierarchy declared by the header: MiniObject (from
miniobject.h), Event deriving from it (line 53), and each typed
subclass deriving from Event (lines 82-227). -/
inductive QGstClass
  | miniObject
  | event
  | eventSubclass : EventSubclass → QGstClass
  deriving DecidableEq, Repr

/-- The declared base class of each class in the hierarchy. -/
def parentOf : QGstClass → Option QGstClass
  | .miniObject => Option.none
  | .event => some .miniObject
  | .eventSubclass _ => some .event

end QGst

namespace QGlib

/-- A pointer handed to the converter hooks: either a live GstEvent
instance or an instance of some other GLib type. -/
inductive GInstance
  | event : QGst.Event → GInstance
  | other : GType → GInstance
  deriving DecidableEq, Repr

/-- Type::fromInstance reads the runtime GLib type of an instance. -/
def GType.fromInstance : GInstance → GType
  | .event _ => .gstEvent
  | .other t => t

/-- The static_cast to GstEvent* followed by EventPtr::wrap in the
converter macro: defined (non-none) exactly on event instances. -/
def GInstance.asEvent : GInstance → Option QGst.Event
  | .event e => some e
  | .other _ => Option.none

/-- The body of the generated CanConvertTo<CLASS>::from(void* instance)
(header lines 238-242): the instance's runtime type must be is-a
QGst::Event, and then the wrapped event's type() must equal the
registered EVTTYPE.  The two conjuncts short-circuit as in the source,
so the cast is only consulted once the type check passed. -/
def canConvertTo_from (evtType : QGst.EventType) (p : GInstance) : Bool :=
  (GType.fromInstance p).isA .gstEvent &&
    (match p.asEvent with
     | some e => e.type == evtType
     | Option.none => false)

/-- The body of the generated CanConvertFrom<CLASS##Ptr>::to(Type t)
(header lines 250-253): GetType<QGst::Event>().isA(t), with no use of
the subclass at all. -/
def canConvertFrom_to (_c : QGst.EventSubclass) (t : GType) : Bool :=
  GType.gstEvent.isA t

/-- A GValue as far as this layer observes it: it may hold a boxed
GstEvent handle. -/
structure ValueBase where
  boxed : Option QGst.Event
  deriving DecidableEq, Repr

/-- Modelled from the spec: ValueImpl<QGst::EventPtr>::set, registered
by QGLIB_REGISTER_VALUEIMPL(QGst::EventPtr) (header line 274) and
defined outside src/, boxes the generic event handle into the value. -/
def ValueImpl_EventPtr_set (value : ValueBase) (data : QGst.Event) :
    ValueBase :=
  { value with boxed := some data }

/-- The body of the generated ValueImpl<CLASSPTR>::set (header lines
263-265): a literal call of ValueImpl<QGst::EventPtr>::set on the same
arguments. -/
def ValueImpl_subclass_set (_c : QGst.EventSubclass) (value : ValueBase)
    (data : QGst.Event) : ValueBase :=
  ValueImpl_EventPtr_set value data

/-- The member surface of a CanConvertTo specialization: the
from(void*) overload, and optionally a from(Type) overload. -/
structure CanConvertToMembers where
  fromInstancePtr : GInstance → Bool
  fromType : Option (GType → Bool)

/-- The CanConvertTo<CLASS> specialization the macro generates for a
registered subclass (header lines 235-245): it has the from(void*)
overload above and deliberately NO from(Type) overload (comment at
lines 243-244). -/
def subclassCanConvertTo (c : QGst.EventSubclass) : CanConvertToMembers :=
  { fromInstancePtr := canConvertTo_from (QGst.subclassEventType c),
    fromType := Option.none }

/-- The member surface of a ValueImpl specialization: an optional set
member and an optional get member. -/
structure ValueImplMembers where
  setMember : Option (ValueBase → QGst.Event → ValueBase)
  getMember : Option (ValueBase → Option QGst.Event)

/-- The ValueImpl<CLASSPTR> specialization the macro generates for a
registered subclass (header lines 260-266): only a set member, no get
member. -/
def subclassValueImpl (c : QGst.EventSubclass) : ValueImplMembers :=
  { setMember := some (ValueImpl_subclass_set c),
    getMember := Option.none }

/-- Modelled from the spec: ValueBase::get (QGlib, outside src/)
consults the CanConvertTo<T>::from(Type) overload of the requested
type; per the header's own comments (lines 47-49 and 243-244) the
extraction is rejected when that overload is absent, modelled as the
none result. -/
def valueBaseGet (m : CanConvertToMembers) (v : ValueBase) :
    Option (Option QGst.Event) :=
  match m.fromType with
  | some _ => some v.boxed
  | Option.none => Option.none

end QGlib

namespace QGst

/-- Helper: the registration table pairs distinct subclasses with
distinct event types. -/
theorem subclassEventType_inj {a b : EventSubclass}
    (h : subclassEventType a = subclassEventType b) : a = b := by
  revert h
  revert a b
  decide

/-- A concrete flush-start event, used by the closed witnesses below. -/
def sampleFlushEvent : Event := Event.newNative .flushStart Option.none .empty

end QGst

/-- C1: the generated CanConvertTo from-instance hook accepts an
instance exactly when its runtime type is-a QGst::Event and the wrapped
event's type() equals the subclass's registered event type; otherwise it
returns false. -/
theorem canConvertTo_from_iff (c : QGst.EventSubclass) (p : QGlib.GInstance) :
    QGlib.canConvertTo_from (QGst.subclassEventType c) p = true ↔
      ((QGlib.GType.fromInstance p).isA .gstEvent = true ∧
        ∃ e, p = QGlib.GInstance.event e ∧
          QGst.Event.type e = QGst.subclassEventType c) := by
  cases p with
  | event e =>
      simp [QGlib.canConvertTo_from, QGlib.GType.fromInstance,
        QGlib.GInstance.asEvent, QGlib.GType.isA]
  | other t =>
      simp [QGlib.canConvertTo_from, QGlib.GType.fromInstance,
        QGlib.GInstance.asEvent]

/-- C2: Event::create(t, s) produces an event with type() equal to t,
and omitting the structure argument is the same as passing the declared
default SharedStructure(NULL) (header line 58). -/
theorem event_create_type_and_default :
    (∀ (t : QGst.EventType) (s : Option QGst.Structure),
        QGst.Event.type (QGst.Event.create t s) = t) ∧
    (∀ t : QGst.EventType,
        QGst.Event.create1 t = QGst.Event.create t QGst.sharedStructureNull) :=
  ⟨fun _ _ => rfl, fun _ => rfl⟩

/-- C3: boxing a strongly-typed event handle through the generated
ValueImpl specialization performs exactly what boxing it as a generic
EventPtr does, for every registered subclass, value and handle. -/
theorem valueImpl_set_delegates (c : QGst.EventSubclass)
    (v : QGlib.ValueBase) (d : QGst.Event) :
    QGlib.ValueImpl_subclass_set c v d = QGlib.ValueImpl_EventPtr_set v d :=
  rfl

/-- C4: the registered family is exactly the eleven subclasses
FlushStart .. Step, in header order, with no duplicates; every subclass
derives from Event and has a static create producing an event of its own
event type; and the Tag event type is associated with none of them. -/
theorem registered_subclass_coverage :
    QGst.registeredSubclasses =
      [QGst.EventSubclass.flushStart, .flushStop, .eos, .newSegment,
       .bufferSize, .sinkMessage, .qos, .seek, .navigation, .latency,
       .step] ∧
    QGst.registeredSubclasses.length = 11 ∧
    QGst.registeredSubclasses.Nodup ∧
    (∀ c : QGst.EventSubclass, c ∈ QGst.registeredSubclasses) ∧
    (∀ c : QGst.EventSubclass,
        QGst.parentOf (QGst.QGstClass.eventSubclass c) =
          some QGst.QGstClass.event) ∧
    (∀ c : QGst.EventSubclass,
        QGst.Event.type (QGst.subclassCreateSample c) =
          QGst.subclassEventType c) ∧
    (∀ c : QGst.EventSubclass,
        QGst.subclassEventType c ≠ QGst.EventType.tag) := by
  refine ⟨rfl, rfl, ?_, ?_, ?_, ?_, ?_⟩ <;> decide

/-- C5: the generated unbox-permission hook CanConvertFrom<CPtr>::to(t)
is GetType<QGst::Event>().isA(t) for every registered subclass, hence
independent of which subclass the pointer type wraps. -/
theorem canConvertFrom_to_uniform (c c2 : QGst.EventSubclass)
    (t : QGlib.GType) :
    QGlib.canConvertFrom_to c t = QGlib.GType.gstEvent.isA t ∧
    QGlib.canConvertFrom_to c t = QGlib.canConvertFrom_to c2 t :=
  ⟨rfl, rfl⟩

/-- C6: for every typed subclass whose create takes data arguments
(NewSegment, BufferSize, SinkMessage, Qos, Seek, Latency, Step), each
declared accessor of the created event yields the corresponding create
argument. -/
theorem accessor_round_trip :
    (∀ (u : Bool) (r ar : QGst.GDouble) (f : QGst.Format)
        (s st p : Int),
        QGst.NewSegmentEvent.isUpdate
            (QGst.NewSegmentEvent.create u r ar f s st p) = some u ∧
        QGst.NewSegmentEvent.rate
            (QGst.NewSegmentEvent.create u r ar f s st p) = some r ∧
        QGst.NewSegmentEvent.appliedRate
            (QGst.NewSegmentEvent.create u r ar f s st p) = some ar ∧
        QGst.NewSegmentEvent.format
            (QGst.NewSegmentEvent.create u r ar f s st p) = some f ∧
        QGst.NewSegmentEvent.start
            (QGst.NewSegmentEvent.create u r ar f s st p) = some s ∧
        QGst.NewSegmentEvent.stop
            (QGst.NewSegmentEvent.create u r ar f s st p) = some st ∧
        QGst.NewSegmentEvent.position
            (QGst.NewSegmentEvent.create u r ar f s st p) = some p) ∧
    (∀ (f : QGst.Format) (mn mx : Int) (a : Bool),
        QGst.BufferSizeEvent.format
            (QGst.BufferSizeEvent.create f mn mx a) = some f ∧
        QGst.BufferSizeEvent.minSize
            (QGst.BufferSizeEvent.create f mn mx a) = some mn ∧
        QGst.BufferSizeEvent.maxSize
            (QGst.BufferSizeEvent.create f mn mx a) = some mx ∧
        QGst.BufferSizeEvent.isAsync
            (QGst.BufferSizeEvent.create f mn mx a) = some a) ∧
    (∀ m : QGst.Message,
        QGst.SinkMessageEvent.message
            (QGst.SinkMessageEvent.create m) = some m) ∧
    (∀ (pr : QGst.GDouble) (d : Int) (t : Nat),
        QGst.QosEvent.proportion (QGst.QosEvent.create pr d t) = some pr ∧
        QGst.QosEvent.diff (QGst.QosEvent.create pr d t) = some d ∧
        QGst.QosEvent.timestamp (QGst.QosEvent.create pr d t) = some t) ∧
    (∀ (r : QGst.GDouble) (f : QGst.Format) (fl : QGst.SeekFlags)
        (sty : QGst.SeekType) (s : Int) (sty2 : QGst.SeekType) (st : Int),
        QGst.SeekEvent.rate
            (QGst.SeekEvent.create r f fl sty s sty2 st) = some r ∧
        QGst.SeekEvent.format
            (QGst.SeekEvent.create r f fl sty s sty2 st) = some f ∧
        QGst.SeekEvent.flags
            (QGst.SeekEvent.create r f fl sty s sty2 st) = some fl ∧
        QGst.SeekEvent.startType
            (QGst.SeekEvent.create r f fl sty s sty2 st) = some sty ∧
        QGst.SeekEvent.start
            (QGst.SeekEvent.create r f fl sty s sty2 st) = some s ∧
        QGst.SeekEvent.stopType
            (QGst.SeekEvent.create r f fl sty s sty2 st) = some sty2 ∧
        QGst.SeekEvent.stop
            (QGst.SeekEvent.create r f fl sty s sty2 st) = some st) ∧
    (∀ l : Nat,
        QGst.LatencyEvent.latency (QGst.LatencyEvent.create l) = some l) ∧
    (∀ (f : QGst.Format) (am : Nat) (r : QGst.GDouble) (fl i : Bool),
        QGst.StepEvent.format (QGst.StepEvent.create f am r fl i) = some f ∧
        QGst.StepEvent.amount (QGst.StepEvent.create f am r fl i) = some am ∧
        QGst.StepEvent.rate (QGst.StepEvent.create f am r fl i) = some r ∧
        QGst.StepEvent.flush (QGst.StepEvent.create f am r fl i) = some fl ∧
        QGst.StepEvent.intermediate
            (QGst.StepEvent.create f am r fl i) = some i) :=
  ⟨fun _ _ _ _ _ _ _ => ⟨rfl, rfl, rfl, rfl, rfl, rfl, rfl⟩,
   fun _ _ _ _ => ⟨rfl, rfl, rfl, rfl⟩,
   fun _ => rfl,
   fun _ _ _ => ⟨rfl, rfl, rfl⟩,
   fun _ _ _ _ _ _ _ => ⟨rfl, rfl, rfl, rfl, rfl, rfl, rfl⟩,
   fun _ => rfl,
   fun _ _ _ _ _ => ⟨rfl, rfl, rfl, rfl, rfl⟩⟩

/-- C7: Event derives from MiniObject, the reference-counted primitive,
and provides ref()/unref() adjusting the single reference count; every
typed subclass derives from Event, so the whole family is refcounted
through the one facade. -/
theorem refcounted_facade :
    QGst.parentOf QGst.QGstClass.event = some QGst.QGstClass.miniObject ∧
    (∀ c : QGst.EventSubclass,
        QGst.parentOf (QGst.QGstClass.eventSubclass c) =
          some QGst.QGstClass.event) ∧
    (∀ e : QGst.Event, (QGst.Event.ref e).refCount = e.refCount + 1) ∧
    (∀ e : QGst.Event, (QGst.Event.unref e).refCount = e.refCount - 1) :=
  ⟨rfl, fun _ => rfl, fun _ => rfl, fun _ => rfl⟩

/-- C8: distinct registered subclasses carry distinct event types, so
the generated from-instance hooks of two distinct subclasses are never
both true on the same instance. -/
theorem canConvertTo_mutually_exclusive (c1 c2 : QGst.EventSubclass)
    (h : c1 ≠ c2) (p : QGlib.GInstance) :
    ¬(QGlib.canConvertTo_from (QGst.subclassEventType c1) p = true ∧
      QGlib.canConvertTo_from (QGst.subclassEventType c2) p = true) := by
  rintro ⟨h1, h2⟩
  cases p with
  | event e =>
      have e1 : QGst.Event.type e = QGst.subclassEventType c1 := by
        simpa [QGlib.canConvertTo_from, QGlib.GType.fromInstance,
          QGlib.GInstance.asEvent, QGlib.GType.isA] using h1
      have e2 : QGst.Event.type e = QGst.subclassEventType c2 := by
        simpa [QGlib.canConvertTo_from, QGlib.GType.fromInstance,
          QGlib.GInstance.asEvent, QGlib.GType.isA] using h2
      exact h (QGst.subclassEventType_inj (e1.symm.trans e2))
  | other t =>
      simp [QGlib.canConvertTo_from, QGlib.GInstance.asEvent] at h1

/-- Witness for C8 at concrete inputs: FlushStart and Eos are distinct
subclasses and their hooks are not both true on a flush-start event. -/
theorem canConvertTo_mutually_exclusive_witness :
    QGst.EventSubclass.flushStart ≠ QGst.EventSubclass.eos ∧
    ¬(QGlib.canConvertTo_from
        (QGst.subclassEventType QGst.EventSubclass.flushStart)
        (QGlib.GInstance.event QGst.sampleFlushEvent) = true ∧
      QGlib.canConvertTo_from
        (QGst.subclassEventType QGst.EventSubclass.eos)
        (QGlib.GInstance.event QGst.sampleFlushEvent) = true) :=
  ⟨by decide,
   canConvertTo_mutually_exclusive QGst.EventSubclass.flushStart
     QGst.EventSubclass.eos (by decide)
     (QGlib.GInstance.event QGst.sampleFlushEvent)⟩

/-- C9: the generated CanConvertTo specialization has no from(Type)
overload, while the generated ValueImpl has a set member and no get
member: a typed subclass handle can be boxed into a GValue but its
extraction through ValueBase::get is rejected. -/
theorem value_get_rejected (c : QGst.EventSubclass) (v : QGlib.ValueBase) :
    (QGlib.subclassCanConvertTo c).fromType = Option.none ∧
    (QGlib.subclassValueImpl c).setMember =
      some (QGlib.ValueImpl_subclass_set c) ∧
    (QGlib.subclassValueImpl c).getMember = Option.none ∧
    QGlib.valueBaseGet (QGlib.subclassCanConvertTo c) v = Option.none :=
  ⟨rfl, rfl, rfl, rfl⟩

/-- C10: setting the sequence number to a quint32 value makes
sequenceNumber() return that value, and leaves type(), typeName(),
timestamp() and structure() unchanged. -/
theorem setSequenceNumber_frame (e : QGst.Event) (n : Nat)
    (h : n < 2 ^ 32) :
    QGst.Event.sequenceNumber (QGst.Event.setSequenceNumber e n) = n ∧
    QGst.Event.type (QGst.Event.setSequenceNumber e n) =
      QGst.Event.type e ∧
    QGst.Event.typeName (QGst.Event.setSequenceNumber e n) =
      QGst.Event.typeName e ∧
    QGst.Event.timestamp (QGst.Event.setSequenceNumber e n) =
      QGst.Event.timestamp e ∧
    QGst.Event.getStructure (QGst.Event.setSequenceNumber e n) =
      QGst.Event.getStructure e :=
  ⟨Nat.mod_eq_of_lt h, rfl, rfl, rfl, rfl⟩

/-- Witness for C10 at a concrete event and number. -/
theorem setSequenceNumber_frame_witness :
    7 < 2 ^ 32 ∧
    (QGst.Event.sequenceNumber
        (QGst.Event.setSequenceNumber QGst.sampleFlushEvent 7) = 7 ∧
     QGst.Event.type
        (QGst.Event.setSequenceNumber QGst.sampleFlushEvent 7) =
       QGst.Event.type QGst.sampleFlushEvent ∧
     QGst.Event.typeName
        (QGst.Event.setSequenceNumber QGst.sampleFlushEvent 7) =
       QGst.Event.typeName QGst.sampleFlushEvent ∧
     QGst.Event.timestamp
        (QGst.Event.setSequenceNumber QGst.sampleFlushEvent 7) =
       QGst.Event.timestamp QGst.sampleFlushEvent ∧
     QGst.Event.getStructure
        (QGst.Event.setSequenceNumber QGst.sampleFlushEvent 7) =
       QGst.Event.getStructure QGst.sampleFlushEvent) :=
  ⟨by decide, setSequenceNumber_frame QGst.sampleFlushEvent 7 (by decide)⟩
